import Mathlib

/-!
Verification of the `fdshare` native helper (`src/lib/src/main/jni/fdhelper.c`).

The helper's observable behaviour is embedded shallowly:

* `scanf`-style input consumption is modelled over `List Char` with the C
  library semantics: `%d` skips whitespace, reads an optional sign and a
  maximal run of digits; `%<w>s` skips whitespace and reads at most `w`
  non-whitespace characters; an ordinary character in a format string must
  match the next input character exactly; a format string with no
  conversions returns `EOF` (here `-1`) when input ends before the literal
  directives are matched, and `0` otherwise (both on a full match and on a
  matching failure).
* Each syscall-level effect of the program is recorded as an `Ev` event;
  each function of the C file becomes a Lean function from its environment
  (syscall results, `errno`, the bytes available on `stdin`) to the event
  trace it produces plus its result.
* Machine integers are `Int`/`Nat`; descriptor values are `Int`.
* The platform constants follow 64-bit Linux (LP64): `sizeof(const char*)`
  is 8, `SOL_SOCKET = 1`, `SCM_RIGHTS = 1`, `CMSG_LEN(sizeof(int)) = 20`,
  `O_RDWR = 2`.
-/

/-- `isspace` on the characters the C locale treats as whitespace:
space (32) and `\t \n \v \f \r` (9–13). -/
def isSpace (c : Char) : Bool := c.toNat = 32 || (9 ≤ c.toNat && c.toNat ≤ 13)

/-- decimal digit, `'0'`..`'9'` (codes 48–57). -/
def isDigit (c : Char) : Bool := 48 ≤ c.toNat && c.toNat ≤ 57

/-- leading-whitespace skipping performed by `%d` and `%s` conversions. -/
def skipSpaces (s : List Char) : List Char := s.dropWhile isSpace

/-- value of a digit string, most significant first (the accumulator fold
`scanf` effectively performs). -/
def digitsToNat (ds : List Char) : Nat := ds.foldl (fun a c => a * 10 + (c.toNat - 48)) 0

/-- the digit-run part of a `%d` conversion: a maximal nonempty run of
digits, yielding its value and the rest of the input. -/
def scanIntCore (s : List Char) : Option (Int × List Char) :=
  let ds := s.takeWhile isDigit
  if ds.isEmpty then none
  else some ((digitsToNat ds : Int), s.dropWhile isDigit)

/-- `scanf("%d")` on the remaining input: skip whitespace, optional sign,
then a nonempty digit run; `none` models a conversion/input failure. -/
def scanInt (s : List Char) : Option (Int × List Char) :=
  let s1 := skipSpaces s
  if s1.isEmpty then none
  else if s1.headI = '-' then (scanIntCore s1.tail).map (fun p => (-p.1, p.2))
  else if s1.headI = '+' then scanIntCore s1.tail
  else scanIntCore s1

/-- at most `w` leading non-whitespace characters of `s`, together with the
unconsumed rest (the reading part of a width-limited `%s`). -/
def takeNonSpace : Nat → List Char → List Char × List Char
  | 0, s => ([], s)
  | _ + 1, [] => ([], [])
  | w + 1, c :: r =>
    if isSpace c then ([], c :: r)
    else
      let p := takeNonSpace w r
      (c :: p.1, p.2)

/-- `scanf("%<w>s")`: skip whitespace, then read at most `w` non-whitespace
characters; fails when no character can be read. -/
def scanStringMax (w : Nat) (s : List Char) : Option (List Char × List Char) :=
  let s1 := skipSpaces s
  let p := takeNonSpace w s1
  if p.1.isEmpty then none else some p

/-- an ordinary (non-whitespace) format character: must match the next
input character exactly. -/
def matchChar (c : Char) : List Char → Option (List Char)
  | [] => none
  | d :: r => if d = c then some r else none

/-- `scanf("GO")` (line 140): a format with no conversions. Returns `EOF`
(`-1`) when the input ends before both literals are matched, otherwise `0`
— both when the literals match and on a matching failure. Consequently any
two available input characters make the call return `0`. -/
def scanfGO (s : List Char) : Int :=
  if s.isEmpty then -1
  else if s.headI = 'G' then (if s.tail.isEmpty then -1 else 0)
  else 0

/-- the per-request format string built by
`sprintf(furtherFormat, "%%%ds,%%d", nameLength)` (line 167):
`"%<nameLength>s,%d"`. -/
def buildFormat (n : Int) : String := "%" ++ toString n ++ "s,%d"

/-- `scanf(furtherFormat, filename, &mode)` (line 176) with format
`"%<w>s,%d"`: a width-limited `%s`, the literal `','`, then `%d`. Returns
the number of items assigned (what the C code compares with `2`), the
assigned values, and the unconsumed input. -/
def scanFurther (w : Nat) (s : List Char) : Nat × Option (List Char) × Option Int × List Char :=
  match scanStringMax w s with
  | none => (0, none, none, s)
  | some (f, r1) =>
    match matchChar ',' r1 with
    | none => (1, some f, none, r1)
    | some r2 =>
      match scanInt r2 with
      | none => (1, some f, none, r2)
      | some (m, r3) => (2, some f, some m, r3)

/-- `SOL_SOCKET` on Linux. -/
def SOL_SOCKET : Nat := 1

/-- `SCM_RIGHTS` on Linux. -/
def SCM_RIGHTS : Nat := 1

/-- `sizeof(const char*)` on the modelled LP64 platform. -/
def ptrSize : Nat := 8

/-- `CMSG_LEN(sizeof(int))` on LP64: aligned `cmsghdr` (16 bytes) + 4. -/
def cmsgLenInt : Nat := 20

/-- the known bytes at `iov_base`: the string literal `"READY"` with its
NUL terminator (line 34). Bytes read past the literal's end are not
modelled. -/
def readyBytes : List Char := "READY".data ++ [Char.ofNat 0]

/-- one `iovec`: the known bytes at its base, and `iov_len`. -/
structure Iovec where
  base : List Char
  len : Nat
  deriving DecidableEq, Repr

/-- one control-message header: `cmsg_len`, `cmsg_level`, `cmsg_type` and
the descriptors in its data. -/
structure Cmsg where
  len : Nat
  level : Nat
  type_ : Nat
  fds : List Int
  deriving DecidableEq, Repr

/-- a `msghdr` as filled in by `ancil_send_fds_with_buffer`. -/
structure Msg where
  iov : List Iovec
  control : List Cmsg
  deriving DecidableEq, Repr

/-- the message built at lines 29–55: one iovec whose base is the `"READY"`
literal and whose length is `sizeof(success) + 1 = sizeof(const char*) + 1`
(line 38 applies `sizeof` to the pointer, not the literal), and one
`SCM_RIGHTS` control message carrying exactly the one descriptor `fd`. -/
def ancilMsg (fd : Int) : Msg :=
  { iov := [{ base := readyBytes, len := ptrSize + 1 }],
    control := [{ len := cmsgLenInt, level := SOL_SOCKET, type_ := SCM_RIGHTS, fds := [fd] }] }

/-- a syscall-level effect of the helper. -/
inductive Ev where
  | ptmxOpen
  | unlockptCall (fd : Int)
  | ptsnameCall (fd : Int)
  | forkCall
  | printfOut (msg : String)
  | setsidCall
  | openCall (path : List Char) (mode : Int)
  | ioctlSetCtty (fd : Int)
  | dup2 (oldfd newfd : Int)
  | socketCall
  | connectCall (fd : Int)
  | sendmsgEv (sock : Int) (m : Msg)
  | readAck
  | closeFd (fd : Int)
  | logErr (msg : String)
  | logDebug (msg : String)
  | writeFd (fd : Int) (msg : String)
  | exitEv (code : Int)
  deriving DecidableEq, Repr

/-- `DieWithError` (lines 19–25): log the failure with `strerror(errno)`,
mirror it on `stderr` (descriptor 2), and `exit(errno)`. -/
def DieWithError (msg : String) (errno : Int) (errDesc : String) : List Ev :=
  [Ev.logErr ("Failure: " ++ msg ++ " errno " ++ errDesc ++ "(" ++ toString errno ++ ")"),
   Ev.writeFd 2 ("Error: " ++ msg ++ " - " ++ errDesc),
   Ev.exitEv errno]

/-- number of `sendmsg` calls in a trace. -/
def sendCount (tr : List Ev) : Nat :=
  (tr.filter fun e => match e with | Ev.sendmsgEv _ _ => true | _ => false).length

/-- number of `open` calls in a trace. -/
def openCount (tr : List Ev) : Nat :=
  (tr.filter fun e => match e with | Ev.openCall _ _ => true | _ => false).length

/-- number of structured log-error records in a trace. -/
def logErrCount (tr : List Ev) : Nat :=
  (tr.filter fun e => match e with | Ev.logErr _ => true | _ => false).length

/-- does an event refer to descriptor `fd`? -/
def usesFd (fd : Int) : Ev → Bool
  | Ev.unlockptCall f => f = fd
  | Ev.ptsnameCall f => f = fd
  | Ev.ioctlSetCtty f => f = fd
  | Ev.dup2 a b => a = fd || b = fd
  | Ev.connectCall f => f = fd
  | Ev.sendmsgEv s m => s = fd || m.control.any (fun c => c.fds.contains fd)
  | Ev.closeFd f => f = fd
  | Ev.writeFd f _ => f = fd
  | _ => false

/-- `ancil_send_fds_with_buffer` (lines 27–58): builds `ancilMsg fd`, calls
`sendmsg` once, and returns `0` when the kernel accepted it (`sendRes ≥ 0`)
and `-1` otherwise. `sendRes` is the environment's `sendmsg` return value.
The function never closes `fd`. -/
def ancil_send_fds_with_buffer (sock fd : Int) (sendRes : Int) : List Ev × Int :=
  ([Ev.sendmsgEv sock (ancilMsg fd)], if sendRes ≥ 0 then 0 else -1)

/-- environment of one `GetTTY` run: every syscall result it consumes. -/
structure TtyEnv where
  masterFd : Int
  unlockRes : Int
  ptsRes : Int
  ptsErrno : Int
  forkRes : Int
  ptsFd : Int
  ioctlRes : Int
  errno : Int
  errDesc : String
  devname : List Char

/-- how a `GetTTY` run ends: the process exits, or execution continues in
the surviving branch with the returned master descriptor. -/
inductive TtyRes where
  | exited (code : Int)
  | running (masterFd : Int)
  deriving DecidableEq, Repr

/-- `GetTTY` (lines 63–107). Failure handling mirrors the source exactly:
the `/dev/ptmx` open, `unlockpt`, `ptsname_r` (nonzero return AND nonzero
`errno`) and `fork` failures call `DieWithError`; the parent branch prints
`PID:<n>` and exits `0`; in the child a failed slave open is a bare
`exit(-1)` with no diagnostic (line 99), and the `ioctl(TIOCSCTTY)` return
value is not checked at all (line 101). -/
def GetTTY (e : TtyEnv) : List Ev × TtyRes :=
  let evs := [Ev.ptmxOpen]
  if e.masterFd < 0 then
    (evs ++ DieWithError "failed to open /dev/ptmx" e.errno e.errDesc, TtyRes.exited e.errno)
  else
    let evs := evs ++ [Ev.unlockptCall e.masterFd]
    if e.unlockRes ≠ 0 then
      (evs ++ DieWithError "trouble with /dev/ptmx" e.errno e.errDesc, TtyRes.exited e.errno)
    else
      let evs := evs ++ [Ev.ptsnameCall e.masterFd]
      if e.ptsRes ≠ 0 ∧ e.ptsErrno ≠ 0 then
        (evs ++ DieWithError "ptsname_r() returned error" e.errno e.errDesc, TtyRes.exited e.errno)
      else
        let evs := evs ++ [Ev.forkCall]
        if e.forkRes < 0 then
          (evs ++ DieWithError "fork() failed" e.errno e.errDesc, TtyRes.exited e.errno)
        else if e.forkRes > 0 then
          (evs ++ [Ev.printfOut ("PID:" ++ toString e.forkRes), Ev.exitEv 0], TtyRes.exited 0)
        else
          let evs := evs ++ [Ev.setsidCall, Ev.openCall e.devname 2]
          if e.ptsFd < 0 then
            (evs ++ [Ev.exitEv (-1)], TtyRes.exited (-1))
          else
            (evs ++ [Ev.ioctlSetCtty e.ptsFd, Ev.dup2 e.ptsFd 0], TtyRes.running e.masterFd)

/-- environment of the socket part of one `Bootstrap` run. `stdin` is the
input available on descriptor 0 when the acknowledgment is read. -/
structure SockEnv where
  sockFd : Int
  connectRes : Int
  sendRes : Int
  closeRes : Int
  stdin : List Char
  errno : Int
  errDesc : String

/-- how a `Bootstrap` run ends. -/
inductive BootRes where
  | exited (code : Int)
  | ok (sock : Int)
  deriving DecidableEq, Repr

/-- `Bootstrap` (lines 113–149). The order of effects mirrors the source:
`GetTTY`, `socket`, `connect`, then `dup2(sock, 1)` and `dup2(sock, 2)`
(lines 134–135) BEFORE the tty descriptor is sent (line 137) and before
the acknowledgment is read (line 140); on `scanf("GO") == 0` the tty is
closed and the socket returned, otherwise `DieWithError`. -/
def Bootstrap (te : TtyEnv) (se : SockEnv) : List Ev × BootRes :=
  match GetTTY te with
  | (evs, TtyRes.exited c) => (evs, BootRes.exited c)
  | (evs, TtyRes.running tty) =>
    let evs := evs ++ [Ev.socketCall]
    if se.sockFd < 0 then
      (evs ++ DieWithError "socket() failed" se.errno se.errDesc, BootRes.exited se.errno)
    else
      let evs := evs ++ [Ev.connectCall se.sockFd]
      if se.connectRes < 0 then
        (evs ++ DieWithError "connect() failed" se.errno se.errDesc, BootRes.exited se.errno)
      else
        let evs := evs ++ [Ev.dup2 se.sockFd 1, Ev.dup2 se.sockFd 2]
        let send := ancil_send_fds_with_buffer se.sockFd tty se.sendRes
        let evs := evs ++ send.1
        if send.2 ≠ 0 then
          (evs ++ DieWithError "sending tty descriptor failed" se.errno se.errDesc,
           BootRes.exited se.errno)
        else
          let evs := evs ++ [Ev.readAck]
          if scanfGO se.stdin = 0 then
            let evs := evs ++ [Ev.closeFd tty]
            if se.closeRes ≠ 0 then
              (evs ++ DieWithError "failed to close controlling tty" se.errno se.errDesc,
               BootRes.exited se.errno)
            else
              (evs ++ [Ev.logDebug "The controlling tty is closed"], BootRes.ok se.sockFd)
          else
            (evs ++ DieWithError "incomplete confirmation message" se.errno se.errDesc,
             BootRes.exited se.errno)

/-- environment of one iteration of the request loop: the socket returned
by `Bootstrap`, the `open` results (as a function of path and mode), the
`sendmsg` and `calloc` results, and `errno`. -/
structure LoopEnv where
  sock : Int
  openRes : List Char → Int → Int
  sendRes : Int
  callocOk : Bool
  errno : Int
  errDesc : String

/-- how one iteration of the `while(1)` loop ends: the process dies inside
`DieWithError`, or the loop proceeds to the next request with the
unconsumed input. -/
inductive StepRes where
  | die (msg : String)
  | next (stdinRest : List Char)
  deriving DecidableEq, Repr

/-- one iteration of the request loop in `main` (lines 159–192): read a
decimal name length, build `"%<len>s,%d"`, `calloc` the filename buffer,
read filename and mode, `open` the filename; a positive descriptor is sent
with `ancil_send_fds_with_buffer` (line 183 tests `targetFd > 0`), any
other `open` result only gets an `fprintf(stderr, ...)`; then
`close(targetFd)` in both branches and the loop continues. -/
def requestStep (env : LoopEnv) (stdin : List Char) : List Ev × StepRes :=
  match scanInt stdin with
  | none =>
    (DieWithError "reading a filename length failed" env.errno env.errDesc,
     StepRes.die "reading a filename length failed")
  | some (nameLength, r1) =>
    let evs := [Ev.logDebug ("Format string is: " ++ buildFormat nameLength)]
    if ¬env.callocOk then
      (evs ++ DieWithError "calloc() failed" env.errno env.errDesc, StepRes.die "calloc() failed")
    else
      match scanFurther nameLength.toNat r1 with
      | (2, some filename, some mode, r2) =>
        let evs := evs ++ [Ev.logDebug ("Attempting to open " ++ String.mk filename),
                           Ev.openCall filename mode]
        let targetFd := env.openRes filename mode
        if targetFd > 0 then
          let send := ancil_send_fds_with_buffer env.sock targetFd env.sendRes
          if send.2 ≠ 0 then
            (evs ++ send.1 ++ DieWithError "sending file descriptor failed" env.errno env.errDesc,
             StepRes.die "sending file descriptor failed")
          else
            (evs ++ send.1 ++ [Ev.closeFd targetFd], StepRes.next r2)
        else
          (evs ++ [Ev.writeFd 2 ("Error: failed to open a file - " ++ env.errDesc),
                   Ev.closeFd targetFd], StepRes.next r2)
      | _ =>
        (evs ++ DieWithError "reading a filename/mode failed" env.errno env.errDesc,
         StepRes.die "reading a filename/mode failed")

/-! ## Parsing lemmas -/

theorem isDigit_not_space {c : Char} (h : isDigit c = true) : isSpace c = false := by
  simp only [isDigit, Bool.and_eq_true, decide_eq_true_eq] at h
  simp only [isSpace, Bool.or_eq_false_iff, Bool.and_eq_false_iff, decide_eq_false_iff_not]
  omega

theorem isDigit_ne_minus {c : Char} (h : isDigit c = true) : c ≠ '-' := by
  intro he
  rw [he] at h
  exact absurd h (by decide)

theorem isDigit_ne_plus {c : Char} (h : isDigit c = true) : c ≠ '+' := by
  intro he
  rw [he] at h
  exact absurd h (by decide)

theorem skipSpaces_cons {c : Char} {s : List Char} (h : isSpace c = false) :
    skipSpaces (c :: s) = c :: s := by
  simp [skipSpaces, List.dropWhile_cons, h]

theorem takeWhile_digits (ds rest : List Char) (hd : ∀ c ∈ ds, isDigit c = true)
    (hr : ∀ c, rest.head? = some c → isDigit c = false) :
    (ds ++ rest).takeWhile isDigit = ds ∧ (ds ++ rest).dropWhile isDigit = rest := by
  induction ds with
  | nil =>
    simp only [List.nil_append]
    cases rest with
    | nil => simp
    | cons c r =>
      have hc := hr c rfl
      simp [List.takeWhile_cons, List.dropWhile_cons, hc]
  | cons c ds ih =>
    have hc := hd c (List.mem_cons_self c ds)
    have hih := ih (fun x hx => hd x (List.mem_cons_of_mem c hx))
    simp [List.takeWhile_cons, List.dropWhile_cons, hc, hih.1, hih.2]

theorem scanInt_digits (ds rest : List Char) (hne : ds ≠ [])
    (hd : ∀ c ∈ ds, isDigit c = true)
    (hr : ∀ c, rest.head? = some c → isDigit c = false) :
    scanInt (ds ++ rest) = some ((digitsToNat ds : Int), rest) := by
  obtain ⟨d, ds', rfl⟩ := List.exists_cons_of_ne_nil hne
  have hd0 : isDigit d = true := hd d (List.mem_cons_self d ds')
  have htw := takeWhile_digits (d :: ds') rest hd hr
  rw [List.cons_append] at htw
  have h1 : skipSpaces (d :: (ds' ++ rest)) = d :: (ds' ++ rest) :=
    skipSpaces_cons (isDigit_not_space hd0)
  simp only [scanInt, List.cons_append, h1, List.isEmpty_cons, List.headI, List.tail_cons]
  rw [if_neg (by simp), if_neg (isDigit_ne_minus hd0), if_neg (isDigit_ne_plus hd0)]
  simp only [scanIntCore, htw.1, htw.2, List.isEmpty_cons]
  simp

theorem takeNonSpace_exact (f r : List Char) (hf : ∀ c ∈ f, isSpace c = false) :
    takeNonSpace f.length (f ++ r) = (f, r) := by
  induction f with
  | nil => simp [takeNonSpace]
  | cons c f ih =>
    have hc := hf c (List.mem_cons_self c f)
    have hih := ih (fun x hx => hf x (List.mem_cons_of_mem c hx))
    simp [takeNonSpace, hc, hih]

theorem scanStringMax_exact (f r : List Char) (hne : f ≠ [])
    (hf : ∀ c ∈ f, isSpace c = false) :
    scanStringMax f.length (f ++ r) = some (f, r) := by
  have h1 : skipSpaces (f ++ r) = f ++ r := by
    obtain ⟨c, f', rfl⟩ := List.exists_cons_of_ne_nil hne
    rw [List.cons_append]
    exact skipSpaces_cons (hf c (List.mem_cons_self c f'))
  simp only [scanStringMax, h1, takeNonSpace_exact f r hf]
  obtain ⟨c, f', rfl⟩ := List.exists_cons_of_ne_nil hne
  simp

theorem scanFurther_exact (path modeStr rest : List Char)
    (hp1 : path ≠ []) (hp2 : ∀ c ∈ path, isSpace c = false)
    (hm1 : modeStr ≠ []) (hm2 : ∀ c ∈ modeStr, isDigit c = true)
    (hr : ∀ c, rest.head? = some c → isDigit c = false) :
    scanFurther path.length (path ++ ',' :: (modeStr ++ rest)) =
      (2, some path, some ((digitsToNat modeStr : Int)), rest) := by
  have hsm : scanStringMax path.length (path ++ ',' :: (modeStr ++ rest)) =
      some (path, ',' :: (modeStr ++ rest)) :=
    scanStringMax_exact path (',' :: (modeStr ++ rest)) hp1 hp2
  have hint : scanInt (modeStr ++ rest) = some ((digitsToNat modeStr : Int), rest) :=
    scanInt_digits modeStr rest hm1 hm2 hr
  simp only [scanFurther, hsm, matchChar, hint]
  simp [hint]

/-! ## Evaluation lemmas for the request loop and the handshake -/

theorem requestStep_sends (env : LoopEnv) (stdin : List Char) (L : Int) (r1 f : List Char)
    (m : Int) (r2 : List Char)
    (hcal : env.callocOk = true)
    (h1 : scanInt stdin = some (L, r1))
    (h2 : scanFurther L.toNat r1 = (2, some f, some m, r2))
    (h3 : env.openRes f m > 0) (h4 : 0 ≤ env.sendRes) :
    requestStep env stdin =
      ([Ev.logDebug ("Format string is: " ++ buildFormat L),
        Ev.logDebug ("Attempting to open " ++ String.mk f),
        Ev.openCall f m,
        Ev.sendmsgEv env.sock (ancilMsg (env.openRes f m)),
        Ev.closeFd (env.openRes f m)], StepRes.next r2) := by
  simp only [requestStep, h1, hcal, h2, ancil_send_fds_with_buffer]
  rw [if_neg (by simp), if_pos h3, if_pos h4]
  simp

theorem requestStep_open_failed (env : LoopEnv) (stdin : List Char) (L : Int) (r1 f : List Char)
    (m : Int) (r2 : List Char)
    (hcal : env.callocOk = true)
    (h1 : scanInt stdin = some (L, r1))
    (h2 : scanFurther L.toNat r1 = (2, some f, some m, r2))
    (h3 : ¬env.openRes f m > 0) :
    requestStep env stdin =
      ([Ev.logDebug ("Format string is: " ++ buildFormat L),
        Ev.logDebug ("Attempting to open " ++ String.mk f),
        Ev.openCall f m,
        Ev.writeFd 2 ("Error: failed to open a file - " ++ env.errDesc),
        Ev.closeFd (env.openRes f m)], StepRes.next r2) := by
  simp only [requestStep, h1, hcal, h2]
  rw [if_neg (by simp), if_neg h3]
  simp

theorem requestStep_no_comma (env : LoopEnv) (stdin : List Char) (L : Int) (r1 f r2 : List Char)
    (hcal : env.callocOk = true)
    (h1 : scanInt stdin = some (L, r1))
    (h2 : scanStringMax L.toNat r1 = some (f, r2))
    (h3 : matchChar ',' r2 = none) :
    requestStep env stdin =
      (Ev.logDebug ("Format string is: " ++ buildFormat L) ::
         DieWithError "reading a filename/mode failed" env.errno env.errDesc,
       StepRes.die "reading a filename/mode failed") := by
  have hsf : scanFurther L.toNat r1 = (1, some f, none, r2) := by
    simp only [scanFurther, h2, h3]
  simp only [requestStep, h1, hcal, hsf]
  rw [if_neg (by simp)]
  simp

theorem scanfGO_ne_zero_iff (s : List Char) : scanfGO s ≠ 0 ↔ s = [] ∨ s = ['G'] := by
  match s with
  | [] => simp [scanfGO]
  | c :: r =>
    by_cases hg : c = 'G'
    · subst hg
      match r with
      | [] => simp [scanfGO]
      | d :: r' => simp [scanfGO, List.headI]
    · simp [scanfGO, List.headI, hg]

theorem GetTTY_running (te : TtyEnv) (evs : List Ev) (tty : Int)
    (h : GetTTY te = (evs, TtyRes.running tty)) : tty = te.masterFd := by
  unfold GetTTY at h
  split at h
  · simp at h
  · split at h
    · simp at h
    · split at h
      · simp at h
      · split at h
        · simp at h
        · split at h
          · simp at h
          · split at h
            · simp at h
            · simp at h
              exact h.2.symm

theorem Bootstrap_ack (te : TtyEnv) (se : SockEnv) (evs : List Ev) (tty : Int)
    (hg : GetTTY te = (evs, TtyRes.running tty))
    (hs : 0 ≤ se.sockFd) (hc : 0 ≤ se.connectRes) (hsend : 0 ≤ se.sendRes) :
    Bootstrap te se =
      (if scanfGO se.stdin = 0 then
         if se.closeRes ≠ 0 then
           (evs ++ [Ev.socketCall, Ev.connectCall se.sockFd, Ev.dup2 se.sockFd 1,
              Ev.dup2 se.sockFd 2, Ev.sendmsgEv se.sockFd (ancilMsg tty), Ev.readAck,
              Ev.closeFd tty] ++
              DieWithError "failed to close controlling tty" se.errno se.errDesc,
            BootRes.exited se.errno)
         else
           (evs ++ [Ev.socketCall, Ev.connectCall se.sockFd, Ev.dup2 se.sockFd 1,
              Ev.dup2 se.sockFd 2, Ev.sendmsgEv se.sockFd (ancilMsg tty), Ev.readAck,
              Ev.closeFd tty, Ev.logDebug "The controlling tty is closed"],
            BootRes.ok se.sockFd)
       else
         (evs ++ [Ev.socketCall, Ev.connectCall se.sockFd, Ev.dup2 se.sockFd 1,
            Ev.dup2 se.sockFd 2, Ev.sendmsgEv se.sockFd (ancilMsg tty), Ev.readAck] ++
            DieWithError "incomplete confirmation message" se.errno se.errDesc,
          BootRes.exited se.errno)) := by
  simp only [Bootstrap, hg, ancil_send_fds_with_buffer]
  rw [if_neg (by omega), if_neg (by omega), if_pos hsend]
  rw [if_neg (by simp)]
  by_cases hgo : scanfGO se.stdin = 0
  · by_cases hcl : se.closeRes ≠ 0
    · simp [hgo, hcl]
    · simp [hgo, hcl]
  · simp [hgo]

theorem requestStep_parsed_prefix (env : LoopEnv) (stdin : List Char) (L : Int)
    (r1 f : List Char) (m : Int) (r2 : List Char)
    (hcal : env.callocOk = true)
    (h1 : scanInt stdin = some (L, r1))
    (h2 : scanFurther L.toNat r1 = (2, some f, some m, r2)) :
    ∃ tail, (requestStep env stdin).1 =
      Ev.logDebug ("Format string is: " ++ buildFormat L) ::
      Ev.logDebug ("Attempting to open " ++ String.mk f) ::
      Ev.openCall f m :: tail := by
  simp only [requestStep, h1, hcal, h2]
  rw [if_neg (by simp)]
  by_cases h3 : env.openRes f m > 0
  · rw [if_pos h3]
    by_cases h4 : (ancil_send_fds_with_buffer env.sock (env.openRes f m) env.sendRes).2 ≠ 0
    · rw [if_pos h4]
      exact ⟨(ancil_send_fds_with_buffer env.sock (env.openRes f m) env.sendRes).1 ++
        DieWithError "sending file descriptor failed" env.errno env.errDesc, by simp⟩
    · rw [if_neg h4]
      exact ⟨(ancil_send_fds_with_buffer env.sock (env.openRes f m) env.sendRes).1 ++
        [Ev.closeFd (env.openRes f m)], by simp⟩
  · rw [if_neg h3]
    exact ⟨[Ev.writeFd 2 ("Error: failed to open a file - " ++ env.errDesc),
      Ev.closeFd (env.openRes f m)], by simp⟩

/-! ## Claims -/

/-- C1 (the claim is the code's documented intent; the code deviates):
the claim says a descriptor value of 0 returned by the open call must be
treated as success and forwarded via the Courier. Line 183 tests
`targetFd > 0`, so a zero descriptor takes the failure branch: for the
request `4/tmp,0` with `open` returning descriptor 0, the loop performs
no `sendmsg` at all (`sendCount = 0`), writes the open-failure diagnostic,
closes descriptor 0 (the process's standard input!) and moves on. -/
theorem fd_zero_treated_as_failure :
    requestStep ⟨3, fun _ _ => 0, 0, true, 13, "Permission denied"⟩ "4/tmp,0".data =
      ([Ev.logDebug "Format string is: %4s,%d",
        Ev.logDebug "Attempting to open /tmp",
        Ev.openCall "/tmp".data 0,
        Ev.writeFd 2 "Error: failed to open a file - Permission denied",
        Ev.closeFd 0], StepRes.next []) ∧
    sendCount (requestStep ⟨3, fun _ _ => 0, 0, true, 13, "Permission denied"⟩
      "4/tmp,0".data).1 = 0 := by
  exact ⟨by decide, by decide⟩

/-- C2 counterexample: for the openable request `4/tmp,0` (with `open`
returning descriptor 7) the single ancillary message the helper sends has
a data segment beginning with the token `"READY"` — there is no `"DONE"`
token anywhere in the code (line 34 fixes the payload to `"READY"` for
every send) — so the data segment is not the literal `"DONE"`. -/
theorem serve_token_is_ready_not_done :
    (requestStep ⟨3, fun _ _ => 7, 0, true, 13, "Permission denied"⟩ "4/tmp,0".data).1 =
      [Ev.logDebug "Format string is: %4s,%d",
       Ev.logDebug "Attempting to open /tmp",
       Ev.openCall "/tmp".data 0,
       Ev.sendmsgEv 3 (ancilMsg 7),
       Ev.closeFd 7] ∧
    (ancilMsg 7).iov.map Iovec.base = [readyBytes] ∧
    readyBytes.take 5 = "READY".data ∧ readyBytes.take 4 ≠ "DONE".data := by
  exact ⟨by decide, by decide, by decide, by decide⟩

/-- C2 (amended): for every request that parses and whose open call
returns a positive descriptor, with the kernel accepting the send, the
helper sends exactly one ancillary-data message carrying that descriptor;
its data segment is the handshake's own literal `"READY"` (the code has
no separate `"DONE"` token), its control data carries exactly the one
descriptor, and the helper closes its own copy of the descriptor
afterwards (the `close` event follows the `sendmsg` event). -/
theorem serve_sends_ready_and_closes (env : LoopEnv) (stdin : List Char) (L : Int)
    (r1 f : List Char) (m : Int) (r2 : List Char)
    (hcal : env.callocOk = true)
    (h1 : scanInt stdin = some (L, r1))
    (h2 : scanFurther L.toNat r1 = (2, some f, some m, r2))
    (h3 : env.openRes f m > 0) (h4 : 0 ≤ env.sendRes) :
    (requestStep env stdin).1 =
      [Ev.logDebug ("Format string is: " ++ buildFormat L),
       Ev.logDebug ("Attempting to open " ++ String.mk f),
       Ev.openCall f m,
       Ev.sendmsgEv env.sock (ancilMsg (env.openRes f m)),
       Ev.closeFd (env.openRes f m)] ∧
    sendCount (requestStep env stdin).1 = 1 ∧
    (ancilMsg (env.openRes f m)).iov.map Iovec.base = [readyBytes] ∧
    (ancilMsg (env.openRes f m)).control.map Cmsg.fds = [[env.openRes f m]] ∧
    (requestStep env stdin).2 = StepRes.next r2 := by
  have h := requestStep_sends env stdin L r1 f m r2 hcal h1 h2 h3 h4
  rw [h]
  exact ⟨rfl, rfl, rfl, rfl, rfl⟩

/-- instance of `serve_sends_ready_and_closes` at a concrete request. -/
theorem serve_sends_ready_and_closes_witness :
    sendCount (requestStep ⟨3, fun _ _ => 7, 0, true, 13, "d"⟩ "4/tmp,0".data).1 = 1 :=
  (serve_sends_ready_and_closes ⟨3, fun _ _ => 7, 0, true, 13, "d"⟩ "4/tmp,0".data 4
    "/tmp,0".data "/tmp".data 0 [] rfl (by decide) (by decide) (by decide) (by decide)).2.1

/-- C3 counterexample: the path `a b` (length 3, containing a space) sent
with the correct length prefix 3 is NOT reconstructed: `%3s` stops at the
space, the literal `','` of the format fails to match the space, `scanf`
returns 1 and the process dies — the open call is never reached. -/
theorem path_with_space_is_fatal :
    (requestStep ⟨3, fun _ _ => 7, 0, true, 13, "d"⟩ "3a b,0".data).2 =
      StepRes.die "reading a filename/mode failed" ∧
    openCount (requestStep ⟨3, fun _ _ => 7, 0, true, 13, "d"⟩ "3a b,0".data).1 = 0 := by
  exact ⟨by decide, by decide⟩

/-- C3 (amended): for every nonempty path containing no whitespace byte
and not beginning with a decimal digit, sent as a correct decimal length
prefix, the path bytes, a comma and a decimal mode, the Request Loop
reconstructs the path byte-for-byte before invoking the open call: the
`open` event carries exactly the original path bytes. (A path containing
whitespace is truncated by `%s` — see the counterexample — and a path
starting with a digit would be absorbed by the preceding `%d`.) -/
theorem roundtrip_nonspace_path (env : LoopEnv) (lenStr path modeStr rest : List Char)
    (hcal : env.callocOk = true)
    (hl1 : lenStr ≠ []) (hl2 : ∀ c ∈ lenStr, isDigit c = true)
    (hl3 : digitsToNat lenStr = path.length)
    (hp1 : path ≠ []) (hp2 : ∀ c ∈ path, isSpace c = false)
    (hp3 : ∀ c, path.head? = some c → isDigit c = false)
    (hm1 : modeStr ≠ []) (hm2 : ∀ c ∈ modeStr, isDigit c = true)
    (hr : ∀ c, rest.head? = some c → isDigit c = false) :
    ∃ tail, (requestStep env (lenStr ++ path ++ ',' :: (modeStr ++ rest))).1 =
      Ev.logDebug ("Format string is: " ++ buildFormat (path.length : Int)) ::
      Ev.logDebug ("Attempting to open " ++ String.mk path) ::
      Ev.openCall path ((digitsToNat modeStr : Int)) :: tail := by
  have hint1 : scanInt (lenStr ++ (path ++ ',' :: (modeStr ++ rest))) =
      some ((digitsToNat lenStr : Int), path ++ ',' :: (modeStr ++ rest)) := by
    apply scanInt_digits lenStr _ hl1 hl2
    intro c hc
    obtain ⟨p, path', rfl⟩ := List.exists_cons_of_ne_nil hp1
    simp only [List.cons_append, List.head?_cons, Option.some.injEq] at hc
    subst hc
    exact hp3 p rfl
  have hL : ((digitsToNat lenStr : Int)).toNat = path.length := by
    rw [Int.toNat_natCast, hl3]
  have hsf : scanFurther ((digitsToNat lenStr : Int)).toNat (path ++ ',' :: (modeStr ++ rest)) =
      (2, some path, some ((digitsToNat modeStr : Int)), rest) := by
    rw [hL]
    exact scanFurther_exact path modeStr rest hp1 hp2 hm1 hm2 hr
  have h := requestStep_parsed_prefix env (lenStr ++ (path ++ ',' :: (modeStr ++ rest)))
    (digitsToNat lenStr : Int) (path ++ ',' :: (modeStr ++ rest)) path
    (digitsToNat modeStr : Int) rest hcal hint1 hsf
  rw [hl3] at h
  simpa using h

/-- instance of `roundtrip_nonspace_path` at a concrete request. -/
theorem roundtrip_nonspace_path_witness :
    ∃ tail, (requestStep ⟨3, fun _ _ => 7, 0, true, 13, "d"⟩
        (['2'] ++ ['a', 'b'] ++ ',' :: (['0'] ++ []))).1 =
      Ev.logDebug ("Format string is: " ++ buildFormat ((['a', 'b'].length : Nat) : Int)) ::
      Ev.logDebug ("Attempting to open " ++ String.mk ['a', 'b']) ::
      Ev.openCall ['a', 'b'] ((digitsToNat ['0'] : Int)) :: tail :=
  roundtrip_nonspace_path ⟨3, fun _ _ => 7, 0, true, 13, "d"⟩ ['2'] ['a', 'b'] ['0'] []
    rfl (by decide) (by decide) (by decide) (by decide) (by decide)
    (fun c hc => by simp at hc; subst hc; decide)
    (by decide) (by decide)
    (fun c hc => by simp at hc)

/-- C4 counterexample: the claim says an open failure produces "no message
on the socket" and only a "local" diagnostic. But `Bootstrap` has rewired
descriptor 2 onto the socket (`dup2(sock, 2)`, line 135 — the `dup2 3 2`
event in the handshake trace), and the open-failure diagnostic is written
to descriptor 2 (line 187) — so its bytes do travel over the socket
connection to the peer. -/
theorem open_failure_diagnostic_reaches_socket :
    Ev.dup2 3 2 ∈ (Bootstrap ⟨5, 0, 0, 0, 0, 4, 0, 13, "d", "/dev/pts/3".data⟩
        ⟨3, 0, 0, 0, "GO".data, 13, "d"⟩).1 ∧
    Ev.writeFd 2 "Error: failed to open a file - Permission denied" ∈
      (requestStep ⟨3, fun _ _ => -1, 0, true, 13, "Permission denied"⟩ "4/tmp,0".data).1 ∧
    (requestStep ⟨3, fun _ _ => -1, 0, true, 13, "Permission denied"⟩ "4/tmp,0".data).2 =
      StepRes.next [] := by
  exact ⟨by decide, by decide, by decide⟩

/-- C4 (amended): for every request that parses and whose open call fails
(returns -1), the helper performs no `sendmsg` (no descriptor and no
ancillary message), writes a diagnostic line to its error stream —
descriptor 2, which the bootstrap has rewired onto the socket, so the text
does reach the peer as raw bytes — and the loop proceeds to the next
request without terminating the process. -/
theorem open_failure_no_send_loop_continues (env : LoopEnv) (stdin : List Char) (L : Int)
    (r1 f : List Char) (m : Int) (r2 : List Char)
    (hcal : env.callocOk = true)
    (h1 : scanInt stdin = some (L, r1))
    (h2 : scanFurther L.toNat r1 = (2, some f, some m, r2))
    (h3 : env.openRes f m = -1) :
    sendCount (requestStep env stdin).1 = 0 ∧
    Ev.writeFd 2 ("Error: failed to open a file - " ++ env.errDesc) ∈
      (requestStep env stdin).1 ∧
    (requestStep env stdin).2 = StepRes.next r2 := by
  have h := requestStep_open_failed env stdin L r1 f m r2 hcal h1 h2 (by rw [h3]; decide)
  rw [h]
  exact ⟨rfl, by simp, rfl⟩

/-- instance of `open_failure_no_send_loop_continues` at a concrete
request. -/
theorem open_failure_no_send_loop_continues_witness :
    sendCount (requestStep ⟨3, fun _ _ => -1, 0, true, 13, "d"⟩ "4/tmp,0".data).1 = 0 ∧
    Ev.writeFd 2 ("Error: failed to open a file - " ++ "d") ∈
      (requestStep ⟨3, fun _ _ => -1, 0, true, 13, "d"⟩ "4/tmp,0".data).1 ∧
    (requestStep ⟨3, fun _ _ => -1, 0, true, 13, "d"⟩ "4/tmp,0".data).2 =
      StepRes.next [] :=
  open_failure_no_send_loop_continues ⟨3, fun _ _ => -1, 0, true, 13, "d"⟩ "4/tmp,0".data 4
    "/tmp,0".data "/tmp".data 0 [] rfl (by decide) (by decide) rfl

/-- C5 counterexample: with the two available input characters `XY` —
which are not the go-ahead token — `scanf("GO")` still returns 0 (a
matching failure is not an input failure), so `Bootstrap` takes the
success branch: it closes the terminal master and returns the socket
instead of exiting. A wrong acknowledgment token is not fatal. -/
theorem wrong_ack_token_accepted :
    (Bootstrap ⟨5, 0, 0, 0, 0, 4, 0, 13, "d", "/dev/pts/3".data⟩
        ⟨3, 0, 0, 0, "XY".data, 13, "d"⟩).2 = BootRes.ok 3 ∧
    Ev.closeFd 5 ∈ (Bootstrap ⟨5, 0, 0, 0, 0, 4, 0, 13, "d", "/dev/pts/3".data⟩
        ⟨3, 0, 0, 0, "XY".data, 13, "d"⟩).1 := by
  exact ⟨by decide, by decide⟩

/-- C5 (amended): once the handshake reaches the acknowledgment read, the
`scanf("GO")` check is fatal exactly when the input is exhausted before
both literal characters are matched — the empty input, or the single
character `G` followed by end-of-input. Any other available input, even
one that does not match the token, is accepted as the acknowledgment and
`Bootstrap` proceeds to close the master descriptor and return the
socket. -/
theorem ack_fatal_iff_eof (te : TtyEnv) (se : SockEnv) (evs : List Ev) (tty : Int)
    (hg : GetTTY te = (evs, TtyRes.running tty))
    (hs : 0 ≤ se.sockFd) (hc : 0 ≤ se.connectRes) (hsend : 0 ≤ se.sendRes)
    (hcl : se.closeRes = 0) :
    (se.stdin = [] ∨ se.stdin = ['G'] →
      (Bootstrap te se).2 = BootRes.exited se.errno ∧
      Ev.writeFd 2 ("Error: incomplete confirmation message - " ++ se.errDesc) ∈
        (Bootstrap te se).1) ∧
    (se.stdin ≠ [] → se.stdin ≠ ['G'] →
      (Bootstrap te se).2 = BootRes.ok se.sockFd ∧
      Ev.closeFd tty ∈ (Bootstrap te se).1) := by
  rw [Bootstrap_ack te se evs tty hg hs hc hsend]
  constructor
  · intro h
    have hgo : scanfGO se.stdin ≠ 0 := (scanfGO_ne_zero_iff se.stdin).mpr h
    rw [if_neg hgo]
    exact ⟨rfl, by simp [DieWithError]⟩
  · intro h1 h2
    have hgo : scanfGO se.stdin = 0 := by
      by_contra hne
      rcases (scanfGO_ne_zero_iff se.stdin).mp hne with h | h
      · exact h1 h
      · exact h2 h
    rw [if_pos hgo, if_neg (by simp [hcl])]
    exact ⟨rfl, by simp⟩

/-- instances of `ack_fatal_iff_eof`: the empty acknowledgment input is
fatal; the two non-matching characters `XY` are accepted. -/
theorem ack_fatal_iff_eof_witness :
    ((Bootstrap ⟨5, 0, 0, 0, 0, 4, 0, 13, "d", "/dev/pts/3".data⟩
        ⟨3, 0, 0, 0, [], 13, "d"⟩).2 = BootRes.exited 13 ∧
      Ev.writeFd 2 ("Error: incomplete confirmation message - " ++ "d") ∈
        (Bootstrap ⟨5, 0, 0, 0, 0, 4, 0, 13, "d", "/dev/pts/3".data⟩
          ⟨3, 0, 0, 0, [], 13, "d"⟩).1) ∧
    ((Bootstrap ⟨5, 0, 0, 0, 0, 4, 0, 13, "d", "/dev/pts/3".data⟩
        ⟨3, 0, 0, 0, "XY".data, 13, "d"⟩).2 = BootRes.ok 3 ∧
      Ev.closeFd 5 ∈ (Bootstrap ⟨5, 0, 0, 0, 0, 4, 0, 13, "d", "/dev/pts/3".data⟩
        ⟨3, 0, 0, 0, "XY".data, 13, "d"⟩).1) :=
  ⟨(ack_fatal_iff_eof ⟨5, 0, 0, 0, 0, 4, 0, 13, "d", "/dev/pts/3".data⟩
      ⟨3, 0, 0, 0, [], 13, "d"⟩
      [Ev.ptmxOpen, Ev.unlockptCall 5, Ev.ptsnameCall 5, Ev.forkCall, Ev.setsidCall,
       Ev.openCall "/dev/pts/3".data 2, Ev.ioctlSetCtty 4, Ev.dup2 4 0] 5
      (by decide) (by decide) (by decide) (by decide) rfl).1 (Or.inl rfl),
   (ack_fatal_iff_eof ⟨5, 0, 0, 0, 0, 4, 0, 13, "d", "/dev/pts/3".data⟩
      ⟨3, 0, 0, 0, "XY".data, 13, "d"⟩
      [Ev.ptmxOpen, Ev.unlockptCall 5, Ev.ptsnameCall 5, Ev.forkCall, Ev.setsidCall,
       Ev.openCall "/dev/pts/3".data 2, Ev.ioctlSetCtty 4, Ev.dup2 4 0] 5
      (by decide) (by decide) (by decide) (by decide) rfl).2 (by decide) (by decide)⟩

/-- C6: whenever `Bootstrap` succeeds (returns the socket after a
successful acknowledgment), its trace closes the terminal master
descriptor, and no event after that close references the master
descriptor: exactly zero local references remain and it is never used
again. -/
theorem master_unused_after_close (te : TtyEnv) (se : SockEnv) (tr : List Ev) (s : Int)
    (h : Bootstrap te se = (tr, BootRes.ok s)) :
    ∃ pre post, tr = pre ++ Ev.closeFd te.masterFd :: post ∧
      ∀ e ∈ post, usesFd te.masterFd e = false := by
  unfold Bootstrap at h
  split at h
  · simp at h
  · rename_i evs tty heq
    have htty : tty = te.masterFd := GetTTY_running te evs tty heq
    subst htty
    simp only [ancil_send_fds_with_buffer] at h
    repeat' split at h
    all_goals first
      | (rw [Prod.mk.injEq] at h
         refine ⟨evs ++ [Ev.socketCall, Ev.connectCall se.sockFd, Ev.dup2 se.sockFd 1,
           Ev.dup2 se.sockFd 2, Ev.sendmsgEv se.sockFd (ancilMsg te.masterFd), Ev.readAck],
           [Ev.logDebug "The controlling tty is closed"], ?_, ?_⟩
         · rw [← h.1]
           simp
         · intro e he
           simp only [List.mem_singleton] at he
           subst he
           rfl)
      | simp at h

/-- instance of `master_unused_after_close` at a concrete successful
handshake. -/
theorem master_unused_after_close_witness :
    ∃ pre post,
      [Ev.ptmxOpen, Ev.unlockptCall 5, Ev.ptsnameCall 5, Ev.forkCall, Ev.setsidCall,
       Ev.openCall "/dev/pts/3".data 2, Ev.ioctlSetCtty 4, Ev.dup2 4 0, Ev.socketCall,
       Ev.connectCall 3, Ev.dup2 3 1, Ev.dup2 3 2, Ev.sendmsgEv 3 (ancilMsg 5), Ev.readAck,
       Ev.closeFd 5, Ev.logDebug "The controlling tty is closed"] =
        pre ++ Ev.closeFd 5 :: post ∧
      ∀ e ∈ post, usesFd 5 e = false :=
  master_unused_after_close ⟨5, 0, 0, 0, 0, 4, 0, 13, "d", "/dev/pts/3".data⟩
    ⟨3, 0, 0, 0, "GO".data, 13, "d"⟩ _ 3 (by decide)

/-- C7: evaluation of the Courier at a failing input. A call performs
exactly one `sendmsg` of one message; the control data is a single
`SCM_RIGHTS` item carrying exactly one descriptor, and the function does
not close the descriptor — but the regular data segment is NOT exactly
the status token: line 38 sets `iov_len = sizeof(success) + 1` where
`success` is a `const char *`, so on the LP64 platform 9 bytes are
queued (the 6 bytes of the token with its terminator plus 3 bytes read
past the end of the literal), not the token's 5 or 6 bytes. -/
theorem courier_message_shape :
    ancil_send_fds_with_buffer 3 5 0 = ([Ev.sendmsgEv 3 (ancilMsg 5)], 0) ∧
    sendCount (ancil_send_fds_with_buffer 3 5 0).1 = 1 ∧
    (ancilMsg 5).control = [⟨cmsgLenInt, SOL_SOCKET, SCM_RIGHTS, [5]⟩] ∧
    (ancilMsg 5).iov.map Iovec.len = [9] ∧
    "READY".length = 5 ∧ (9 : Nat) ≠ 5 ∧ (9 : Nat) ≠ 6 ∧
    Ev.closeFd 5 ∉ (ancil_send_fds_with_buffer 3 5 0).1 := by
  exact ⟨by decide, by decide, by decide, by decide, by decide, by decide, by decide, by decide⟩

/-- C8 counterexample: in the child, a failing slave-device open is a bare
`exit(-1)` (line 99) — no structured diagnostic at all, and the exit
status is -1, not the OS error code 13; and a failing `TIOCSCTTY` ioctl
is never checked: the bootstrap continues as if it had succeeded. -/
theorem slave_open_exits_silently_and_ioctl_unchecked :
    (GetTTY ⟨5, 0, 0, 0, 0, -1, -1, 13, "Permission denied", "/dev/pts/3".data⟩).2 =
      TtyRes.exited (-1) ∧
    logErrCount (GetTTY ⟨5, 0, 0, 0, 0, -1, -1, 13, "Permission denied",
      "/dev/pts/3".data⟩).1 = 0 ∧
    ((-1 : Int) ≠ 13) ∧
    (GetTTY ⟨5, 0, 0, 0, 0, 4, -1, 13, "Permission denied", "/dev/pts/3".data⟩).2 =
      TtyRes.running 5 := by
  exact ⟨by decide, by decide, by decide, by decide⟩

/-- C8 (amended): failures of the pty master open, of `unlockpt`, of
`ptsname_r` (nonzero return with nonzero `errno`) and of `fork` are fatal
with a structured diagnostic and the OS error code as exit status; but a
slave-device open failure exits with status -1 and no diagnostic, and an
`ioctl(TIOCSCTTY)` failure is not checked at all — the bootstrap
continues and returns the master descriptor. -/
theorem getty_fatal_paths (e : TtyEnv) :
    (e.masterFd < 0 → GetTTY e =
       ([Ev.ptmxOpen] ++ DieWithError "failed to open /dev/ptmx" e.errno e.errDesc,
        TtyRes.exited e.errno)) ∧
    (0 ≤ e.masterFd → e.unlockRes ≠ 0 → GetTTY e =
       ([Ev.ptmxOpen, Ev.unlockptCall e.masterFd] ++
          DieWithError "trouble with /dev/ptmx" e.errno e.errDesc,
        TtyRes.exited e.errno)) ∧
    (0 ≤ e.masterFd → e.unlockRes = 0 → e.ptsRes ≠ 0 → e.ptsErrno ≠ 0 → GetTTY e =
       ([Ev.ptmxOpen, Ev.unlockptCall e.masterFd, Ev.ptsnameCall e.masterFd] ++
          DieWithError "ptsname_r() returned error" e.errno e.errDesc,
        TtyRes.exited e.errno)) ∧
    (0 ≤ e.masterFd → e.unlockRes = 0 → ¬(e.ptsRes ≠ 0 ∧ e.ptsErrno ≠ 0) → e.forkRes < 0 →
       GetTTY e =
       ([Ev.ptmxOpen, Ev.unlockptCall e.masterFd, Ev.ptsnameCall e.masterFd, Ev.forkCall] ++
          DieWithError "fork() failed" e.errno e.errDesc,
        TtyRes.exited e.errno)) ∧
    (0 ≤ e.masterFd → e.unlockRes = 0 → ¬(e.ptsRes ≠ 0 ∧ e.ptsErrno ≠ 0) → e.forkRes = 0 →
       e.ptsFd < 0 →
       GetTTY e =
       ([Ev.ptmxOpen, Ev.unlockptCall e.masterFd, Ev.ptsnameCall e.masterFd, Ev.forkCall,
         Ev.setsidCall, Ev.openCall e.devname 2, Ev.exitEv (-1)], TtyRes.exited (-1)) ∧
       logErrCount (GetTTY e).1 = 0) ∧
    (0 ≤ e.masterFd → e.unlockRes = 0 → ¬(e.ptsRes ≠ 0 ∧ e.ptsErrno ≠ 0) → e.forkRes = 0 →
       0 ≤ e.ptsFd → (GetTTY e).2 = TtyRes.running e.masterFd) := by
  refine ⟨?_, ?_, ?_, ?_, ?_, ?_⟩
  · intro h1
    simp [GetTTY, h1]
  · intro h1 h2
    have h1' : ¬e.masterFd < 0 := by omega
    simp [GetTTY, h1', h2]
  · intro h1 h2 h3 h4
    have h1' : ¬e.masterFd < 0 := by omega
    simp [GetTTY, h1', h2, h3, h4]
  · intro h1 h2 h3 h4
    have h1' : ¬e.masterFd < 0 := by omega
    simp [GetTTY, h1', h2, h3, h4]
  · intro h1 h2 h3 h4 h5
    have h1' : ¬e.masterFd < 0 := by omega
    have h4' : ¬e.forkRes < 0 := by omega
    have h4'' : ¬e.forkRes > 0 := by omega
    have heq : GetTTY e =
        ([Ev.ptmxOpen, Ev.unlockptCall e.masterFd, Ev.ptsnameCall e.masterFd, Ev.forkCall,
          Ev.setsidCall, Ev.openCall e.devname 2, Ev.exitEv (-1)], TtyRes.exited (-1)) := by
      simp [GetTTY, h1', h2, h3, h4', h4'', h5]
    refine ⟨heq, ?_⟩
    rw [heq]
    rfl
  · intro h1 h2 h3 h4 h5
    have h1' : ¬e.masterFd < 0 := by omega
    have h4' : ¬e.forkRes < 0 := by omega
    have h4'' : ¬e.forkRes > 0 := by omega
    have h5' : ¬e.ptsFd < 0 := by omega
    simp [GetTTY, h1', h2, h3, h4', h4'', h5']

/-- instances of `getty_fatal_paths`, one per failure path. -/
theorem getty_fatal_paths_witness :
    GetTTY ⟨-1, 0, 0, 0, 0, 0, 0, 13, "d", []⟩ =
      ([Ev.ptmxOpen] ++ DieWithError "failed to open /dev/ptmx" 13 "d", TtyRes.exited 13) ∧
    GetTTY ⟨5, 1, 0, 0, 0, 0, 0, 13, "d", []⟩ =
      ([Ev.ptmxOpen, Ev.unlockptCall 5] ++ DieWithError "trouble with /dev/ptmx" 13 "d",
       TtyRes.exited 13) ∧
    GetTTY ⟨5, 0, 1, 7, 0, 0, 0, 13, "d", []⟩ =
      ([Ev.ptmxOpen, Ev.unlockptCall 5, Ev.ptsnameCall 5] ++
         DieWithError "ptsname_r() returned error" 13 "d", TtyRes.exited 13) ∧
    GetTTY ⟨5, 0, 0, 0, -1, 0, 0, 13, "d", []⟩ =
      ([Ev.ptmxOpen, Ev.unlockptCall 5, Ev.ptsnameCall 5, Ev.forkCall] ++
         DieWithError "fork() failed" 13 "d", TtyRes.exited 13) ∧
    (GetTTY ⟨5, 0, 0, 0, 0, -1, 0, 13, "d", []⟩ =
      ([Ev.ptmxOpen, Ev.unlockptCall 5, Ev.ptsnameCall 5, Ev.forkCall, Ev.setsidCall,
        Ev.openCall [] 2, Ev.exitEv (-1)], TtyRes.exited (-1)) ∧
      logErrCount (GetTTY ⟨5, 0, 0, 0, 0, -1, 0, 13, "d", []⟩).1 = 0) ∧
    (GetTTY ⟨5, 0, 0, 0, 0, 4, -1, 13, "d", []⟩).2 = TtyRes.running 5 :=
  ⟨(getty_fatal_paths ⟨-1, 0, 0, 0, 0, 0, 0, 13, "d", []⟩).1 (by decide),
   (getty_fatal_paths ⟨5, 1, 0, 0, 0, 0, 0, 13, "d", []⟩).2.1 (by decide) (by decide),
   (getty_fatal_paths ⟨5, 0, 1, 7, 0, 0, 0, 13, "d", []⟩).2.2.1 (by decide) rfl (by decide)
     (by decide),
   (getty_fatal_paths ⟨5, 0, 0, 0, -1, 0, 0, 13, "d", []⟩).2.2.2.1 (by decide) rfl (by decide)
     (by decide),
   (getty_fatal_paths ⟨5, 0, 0, 0, 0, -1, 0, 13, "d", []⟩).2.2.2.2.1 (by decide) rfl (by decide)
     rfl (by decide),
   (getty_fatal_paths ⟨5, 0, 0, 0, 0, 4, -1, 13, "d", []⟩).2.2.2.2.2 (by decide) rfl (by decide)
     rfl (by decide)⟩

/-- C9 counterexample: in a concrete successful run, the standard streams
are rewired onto the socket (the `dup2` events at positions 10 and 11 of
the trace) BEFORE the master descriptor is sent (position 12) and before
the acknowledgment is read (position 13) — not only after the
acknowledgment, as the claim requires. -/
theorem streams_rewired_before_send :
    (Bootstrap ⟨5, 0, 0, 0, 0, 4, 0, 13, "d", "/dev/pts/3".data⟩
        ⟨3, 0, 0, 0, "GO".data, 13, "d"⟩).1.get? 10 = some (Ev.dup2 3 1) ∧
    (Bootstrap ⟨5, 0, 0, 0, 0, 4, 0, 13, "d", "/dev/pts/3".data⟩
        ⟨3, 0, 0, 0, "GO".data, 13, "d"⟩).1.get? 11 = some (Ev.dup2 3 2) ∧
    (Bootstrap ⟨5, 0, 0, 0, 0, 4, 0, 13, "d", "/dev/pts/3".data⟩
        ⟨3, 0, 0, 0, "GO".data, 13, "d"⟩).1.get? 12 = some (Ev.sendmsgEv 3 (ancilMsg 5)) ∧
    (Bootstrap ⟨5, 0, 0, 0, 0, 4, 0, 13, "d", "/dev/pts/3".data⟩
        ⟨3, 0, 0, 0, "GO".data, 13, "d"⟩).1.get? 13 = some Ev.readAck := by
  exact ⟨by decide, by decide, by decide, by decide⟩

/-- C9 (amended): in every run that reaches the handshake (connect
succeeded), the two `dup2` calls rewiring standard output and standard
error onto the socket occur immediately after `connect` — BEFORE the
master descriptor is sent and before the acknowledgment is read: every
such trace extends `... connect, dup2(sock,1), dup2(sock,2), sendmsg,
read-acknowledgment ...`. -/
theorem rewire_precedes_send_and_ack (te : TtyEnv) (se : SockEnv) (evs : List Ev) (tty : Int)
    (hg : GetTTY te = (evs, TtyRes.running tty))
    (hs : 0 ≤ se.sockFd) (hc : 0 ≤ se.connectRes) (hsend : 0 ≤ se.sendRes) :
    ∃ post, (Bootstrap te se).1 =
      evs ++ [Ev.socketCall, Ev.connectCall se.sockFd, Ev.dup2 se.sockFd 1,
        Ev.dup2 se.sockFd 2, Ev.sendmsgEv se.sockFd (ancilMsg tty), Ev.readAck] ++ post := by
  rw [Bootstrap_ack te se evs tty hg hs hc hsend]
  by_cases hgo : scanfGO se.stdin = 0
  · rw [if_pos hgo]
    by_cases hcl : se.closeRes ≠ 0
    · rw [if_pos hcl]
      exact ⟨Ev.closeFd tty ::
        DieWithError "failed to close controlling tty" se.errno se.errDesc, by simp⟩
    · rw [if_neg hcl]
      exact ⟨[Ev.closeFd tty, Ev.logDebug "The controlling tty is closed"], by simp⟩
  · rw [if_neg hgo]
    exact ⟨DieWithError "incomplete confirmation message" se.errno se.errDesc, by simp⟩

/-- instance of `rewire_precedes_send_and_ack` at a concrete run. -/
theorem rewire_precedes_send_and_ack_witness :
    ∃ post, (Bootstrap ⟨5, 0, 0, 0, 0, 4, 0, 13, "d", "/dev/pts/3".data⟩
        ⟨3, 0, 0, 0, "GO".data, 13, "d"⟩).1 =
      [Ev.ptmxOpen, Ev.unlockptCall 5, Ev.ptsnameCall 5, Ev.forkCall, Ev.setsidCall,
       Ev.openCall "/dev/pts/3".data 2, Ev.ioctlSetCtty 4, Ev.dup2 4 0] ++
      [Ev.socketCall, Ev.connectCall 3, Ev.dup2 3 1, Ev.dup2 3 2,
       Ev.sendmsgEv 3 (ancilMsg 5), Ev.readAck] ++ post :=
  rewire_precedes_send_and_ack ⟨5, 0, 0, 0, 0, 4, 0, 13, "d", "/dev/pts/3".data⟩
    ⟨3, 0, 0, 0, "GO".data, 13, "d"⟩
    [Ev.ptmxOpen, Ev.unlockptCall 5, Ev.ptsnameCall 5, Ev.forkCall, Ev.setsidCall,
     Ev.openCall "/dev/pts/3".data 2, Ev.ioctlSetCtty 4, Ev.dup2 4 0] 5
    (by decide) (by decide) (by decide) (by decide)

/-- C10: the per-request format built by `sprintf` is `"%<length>s,%d"`,
demanding a literal comma between the path bytes and the decimal mode.
When, after the filename conversion, the next input character is not a
comma (or the input has ended), `scanf` assigns fewer than two items, and
the loop's `!= 2` check calls `DieWithError`: a request without the comma
separator is fatal to the process, and the open call is never reached. -/
theorem missing_comma_is_fatal (env : LoopEnv) (stdin : List Char) (L : Int)
    (r1 f r2 : List Char)
    (hcal : env.callocOk = true)
    (h1 : scanInt stdin = some (L, r1))
    (h2 : scanStringMax L.toNat r1 = some (f, r2))
    (h3 : matchChar ',' r2 = none) :
    buildFormat L = "%" ++ toString L ++ "s,%d" ∧
    (requestStep env stdin).2 = StepRes.die "reading a filename/mode failed" ∧
    openCount (requestStep env stdin).1 = 0 := by
  have h := requestStep_no_comma env stdin L r1 f r2 hcal h1 h2 h3
  rw [h]
  exact ⟨rfl, rfl, rfl⟩

/-- instance of `missing_comma_is_fatal` at a concrete comma-less
request. -/
theorem missing_comma_is_fatal_witness :
    buildFormat 2 = "%" ++ toString (2 : Int) ++ "s,%d" ∧
    (requestStep ⟨3, fun _ _ => 7, 0, true, 13, "d"⟩ "2ab".data).2 =
      StepRes.die "reading a filename/mode failed" ∧
    openCount (requestStep ⟨3, fun _ _ => 7, 0, true, 13, "d"⟩ "2ab".data).1 = 0 :=
  missing_comma_is_fatal ⟨3, fun _ _ => 7, 0, true, 13, "d"⟩ "2ab".data 2 "ab".data
    "ab".data [] rfl (by decide) (by decide) rfl
